import Mathlib

/-
Verification of the mcp-image-generator server
(src/src/mcp_image_generator/server.py).

The handler `generate_image` is an async Python function whose effects are
notifications on the calling context (`ctx.info` / `ctx.warning` /
`ctx.error`), structured log lines (`logger.info` / `logger.error`), and a
single outbound call to the image-generation provider. We embed it as a
pure function over an environment oracle `Env` that fixes the outcome of
client construction and of the provider call; the function returns the
ordered trace of events (log lines, notifications, provider calls) together
with the outcome (a returned image list, or a raised exception message).
-/

namespace McpImageGenerator

/-- The `image_size` literal: "1K" | "2K". -/
inductive ImageSize
  | s1K
  | s2K
deriving DecidableEq, Repr

/-- The `aspect_ratio` literal: "1:1" | "3:4" | "4:3" | "9:16" | "16:9". -/
inductive AspectRatio
  | r1x1
  | r3x4
  | r4x3
  | r9x16
  | r16x9
deriving DecidableEq, Repr

/-- The `person_generation` literal: "dont_allow" | "allow_adult" | "allow_all". -/
inductive PersonGeneration
  | dont_allow
  | allow_adult
  | allow_all
deriving DecidableEq, Repr

/-- `genai.types.GenerateImagesConfig` as built by the handler. -/
structure GenerateImagesConfig where
  number_of_images : Int
  image_size : ImageSize
  aspect_ratio : AspectRatio
  person_generation : PersonGeneration
  output_mime_type : String
deriving DecidableEq, Repr

/-- The argument bundle of one `client.aio.models.generate_images` call. -/
structure GenerateImagesRequest where
  model : String
  prompt : String
  config : GenerateImagesConfig
deriving DecidableEq, Repr

/-- A `genai` image object carrying raw bytes (`image.image_bytes`). -/
structure GenImage where
  image_bytes : List Nat
deriving DecidableEq, Repr

/-- One entry of the provider response; `image` may be `None`. -/
structure GeneratedImage where
  image : Option GenImage
deriving DecidableEq, Repr

/-- `genai.types.GenerateImagesResponse`. -/
structure GenerateImagesResponse where
  generated_images : List GeneratedImage
deriving DecidableEq, Repr

/-- `fastmcp.utilities.types.Image(data=..., format=...)`. -/
structure FastMCPImage where
  data : List Nat
  format : String
deriving DecidableEq, Repr

/-- The transport-level image content object produced by `to_image_content`. -/
structure ImageContent where
  data : List Nat
  mimeType : String
deriving DecidableEq, Repr

/-- `fastmcp.utilities.types.Image.to_image_content`: wraps the bytes and
declares the MIME type derived from the format tag. -/
def to_image_content (img : FastMCPImage) : ImageContent :=
  { data := img.data, mimeType := "image/" ++ img.format }

/-- A notification sent on the calling context (`ctx.info` / `ctx.warning` /
`ctx.error`). -/
inductive Notif
  | info (msg : String)
  | warning (msg : String)
  | error (msg : String)
deriving DecidableEq, Repr

/-- A structured log line (`logger.info` / `logger.error`). -/
inductive LogLine
  | info (msg : String)
  | error (msg : String)
deriving DecidableEq, Repr

/-- One observable event of a handler run, in program order. -/
inductive Event
  | log (l : LogLine)
  | notif (n : Notif)
  | providerCall (r : GenerateImagesRequest)
deriving DecidableEq, Repr

/-- The way a handler invocation terminates: a returned image list, or a
raised exception carrying its message. -/
inductive HandlerOutcome
  | success (images : List ImageContent)
  | raised (msg : String)
deriving DecidableEq, Repr

/-- The full observable behaviour of one handler invocation. -/
structure HandlerResult where
  trace : List Event
  outcome : HandlerOutcome
deriving DecidableEq, Repr

/-- The notification carried by an event, if any. -/
def eventNotif : Event → Option Notif
  | Event.notif n => some n
  | _ => none

/-- The log line carried by an event, if any. -/
def eventLog : Event → Option LogLine
  | Event.log l => some l
  | _ => none

/-- The provider request carried by an event, if any. -/
def eventRequest : Event → Option GenerateImagesRequest
  | Event.providerCall q => some q
  | _ => none

/-- The notifications of a run, in emission order. -/
def HandlerResult.notifs (r : HandlerResult) : List Notif :=
  r.trace.filterMap eventNotif

/-- The log lines of a run, in emission order. -/
def HandlerResult.logs (r : HandlerResult) : List LogLine :=
  r.trace.filterMap eventLog

/-- The provider requests dispatched during a run, in dispatch order. -/
def HandlerResult.requests (r : HandlerResult) : List GenerateImagesRequest :=
  r.trace.filterMap eventRequest

/-- The environment oracle: process-wide configuration plus the behaviour of
the external world (client construction, provider call). -/
structure Env where
  MODEL : String
  GEMINI_API_KEY : String
  client_construction : Except String Unit
  provider : GenerateImagesRequest → Except String GenerateImagesResponse

/-- The incoming request as validated by the framework: `prompt` is required,
the four behavioral parameters are optional. -/
structure RawRequest where
  prompt : String
  image_size : Option ImageSize
  num_images : Option Int
  aspect_ratio : Option AspectRatio
  person_generation : Option PersonGeneration
deriving DecidableEq, Repr

/-- The request after the framework validated it and applied the signature
defaults. -/
structure ResolvedRequest where
  prompt : String
  image_size : ImageSize
  num_images : Int
  aspect_ratio : AspectRatio
  person_generation : PersonGeneration
deriving DecidableEq, Repr

/-- Framework-side validation and defaulting (the pydantic `Field`
constraints on the tool signature): `max_length=1920` on the prompt,
`ge=1, le=4` on `num_images`, and the declared defaults `"1K"`, `4`,
`"16:9"`, `"allow_adult"` when a parameter is absent.  `none` means the
request is rejected before the handler body runs. -/
def resolveRequest (r : RawRequest) : Option ResolvedRequest :=
  if 1920 < r.prompt.length then none
  else
    let n := r.num_images.getD 4
    if n < 1 ∨ 4 < n then none
    else
      some
        { prompt := r.prompt
          image_size := r.image_size.getD ImageSize.s1K
          num_images := n
          aspect_ratio := r.aspect_ratio.getD AspectRatio.r16x9
          person_generation := r.person_generation.getD PersonGeneration.allow_adult }

/-- The single provider request the handler builds: process-wide model,
prompt, the four behavioral parameters, and the fixed PNG output MIME type. -/
def providerRequest (env : Env) (req : ResolvedRequest) : GenerateImagesRequest :=
  { model := env.MODEL
    prompt := req.prompt
    config :=
      { number_of_images := req.num_images
        image_size := req.image_size
        aspect_ratio := req.aspect_ratio
        person_generation := req.person_generation
        output_mime_type := "image/png" } }

/-- The `ctx.info` message emitted just before dispatch. -/
def makingRequestMsg (prompt : String) : String :=
  "Making request to generate images with prompt " ++ prompt

/-- The body of `generate_image` (server.py, lines 21-83), as the event
trace and outcome it produces under environment `env` on the resolved
request `req`. -/
def generate_image (env : Env) (req : ResolvedRequest) : HandlerResult :=
  let pre : List Event :=
    [Event.log (LogLine.info
        ("Generating " ++ toString req.num_images ++ " images with prompt: " ++ req.prompt)),
     Event.log (LogLine.info "Creating client")]
  match env.client_construction with
  | Except.error e =>
    { trace := pre ++
        [Event.notif (Notif.error ("Failed to create Gemini client: " ++ e)),
         Event.log (LogLine.error ("Failed to create Gemini client: " ++ e))]
      outcome := HandlerOutcome.raised e }
  | Except.ok _ =>
    let pre2 : List Event := pre ++
      [Event.log (LogLine.info "making request"),
       Event.notif (Notif.info (makingRequestMsg req.prompt))]
    let greq : GenerateImagesRequest := providerRequest env req
    match env.provider greq with
    | Except.error e =>
      { trace := pre2 ++
          [Event.providerCall greq,
           Event.notif (Notif.error ("Failed to generate images: " ++ e)),
           Event.log (LogLine.error ("Failed to generate images: " ++ e))]
        outcome := HandlerOutcome.raised e }
    | Except.ok response =>
      if response.generated_images.isEmpty then
        let msg := "No images were generated."
        { trace := pre2 ++
            [Event.providerCall greq,
             Event.notif (Notif.warning msg),
             Event.notif (Notif.error ("Failed to generate images: " ++ msg)),
             Event.log (LogLine.error ("Failed to generate images: " ++ msg))]
          outcome := HandlerOutcome.raised msg }
      else
        let fastmcp_images : List FastMCPImage :=
          response.generated_images.filterMap fun generated_image =>
            generated_image.image.map fun img =>
              { data := img.image_bytes, format := "png" }
        let images : List ImageContent := fastmcp_images.map to_image_content
        { trace := pre2 ++
            [Event.providerCall greq,
             Event.notif (Notif.info
               ("Successfully generated " ++ toString images.length ++ " images."))]
          outcome := HandlerOutcome.success images }

/-- One full tool invocation as seen from the transport: framework
validation first, then (only if it passes) the handler body.  `none` means
the request was rejected before the handler ran: no client was constructed
and no provider request was issued. -/
def dispatchTool (env : Env) (r : RawRequest) : Option HandlerResult :=
  (resolveRequest r).map (generate_image env)

/-! ### The process entry point (server.py, lines 86-130) -/

/-- Module-level default of `MODEL`. -/
def MODEL_default : String := "imagen-4.0-generate-001"

/-- Module-level default of `GEMINI_API_KEY` (the "not configured"
sentinel). -/
def GEMINI_API_KEY_default : String := "unknown"

/-- The `--transport` choice: "streamable-http" | "stdio". -/
inductive Transport
  | streamable_http
  | stdio
deriving DecidableEq, Repr

/-- The `--log-level` choice. -/
inductive LogLevel
  | DEBUG
  | INFO
  | WARNING
  | ERROR
  | CRITICAL
deriving DecidableEq, Repr

/-- The inputs click consults for one option: the command-line flag value if
given, and the environment-variable value if set (both already validated
against the option type). -/
structure OptInput (α : Type) where
  flag : Option α
  envVar : Option α
deriving DecidableEq, Repr

/-- Click resolution of one option: the flag wins, then the environment
variable, then the declared default. -/
def resolveOpt {α : Type} (i : OptInput α) (dflt : α) : α :=
  match i.flag with
  | some v => v
  | none =>
    match i.envVar with
    | some v => v
    | none => dflt

/-- The flag/environment inputs of a process start, one `OptInput` per
click option. -/
structure CliInput where
  transport : OptInput Transport
  port : OptInput Int
  host : OptInput String
  log_level : OptInput LogLevel
  model : OptInput String
  api_key : OptInput String

/-- The resolved process configuration. -/
structure ProcessConfig where
  transport : Transport
  port : Int
  host : String
  log_level : LogLevel
  model : String
  api_key : String
deriving DecidableEq, Repr

/-- Click resolving all six options of `main`, each as flag, then
environment variable, then the default declared in the decorator. -/
def resolveConfig (c : CliInput) : ProcessConfig :=
  { transport := resolveOpt c.transport Transport.streamable_http
    port := resolveOpt c.port 3000
    host := resolveOpt c.host "127.0.0.1"
    log_level := resolveOpt c.log_level LogLevel.INFO
    model := resolveOpt c.model MODEL_default
    api_key := resolveOpt c.api_key GEMINI_API_KEY_default }

/-- The process-wide mutable globals read by the handler. -/
structure ProcessState where
  MODEL : String
  GEMINI_API_KEY : String
deriving DecidableEq, Repr

/-- What `mcp.run` is invoked with at the end of `main`. -/
inductive ServerRun
  | streamableHttp (host : String) (port : Int)
  | stdio
deriving DecidableEq, Repr

/-- The observable effect of `main`: logging configured at the resolved
level, the process-wide state as assigned (once, before serving), the log
lines written, and the transport the server loop is started on. -/
structure MainResult where
  logLevelConfigured : LogLevel
  state : ProcessState
  logs : List LogLine
  run : ServerRun
deriving DecidableEq, Repr

/-- The body of `main`: configure logging, assign the globals `MODEL` and
`GEMINI_API_KEY` from the resolved configuration, log the model in use, and
start the server on the chosen transport (HTTP bound to host:port for
"streamable-http", stdio otherwise). -/
def mainEntry (c : CliInput) : MainResult :=
  let cfg := resolveConfig c
  { logLevelConfigured := cfg.log_level
    state := { MODEL := cfg.model, GEMINI_API_KEY := cfg.api_key }
    logs := [LogLine.info ("Using model: " ++ cfg.model)]
    run :=
      match cfg.transport with
      | Transport.streamable_http => ServerRun.streamableHttp cfg.host cfg.port
      | Transport.stdio => ServerRun.stdio }

/-! ### Helper lemmas -/

theorem append_failed_generate :
    "Failed to generate images: " ++ "No images were generated." =
      "Failed to generate images: No images were generated." := rfl

/-- The wrap-then-convert pipeline of the handler equals a single
filter-and-tag pass. -/
theorem wrap_convert_eq (l : List GeneratedImage) :
    (l.filterMap fun g => g.image.map fun img =>
        FastMCPImage.mk img.image_bytes "png").map to_image_content =
      (l.filterMap fun g => g.image).map fun img =>
        ImageContent.mk img.image_bytes "image/png" := by
  induction l with
  | nil => rfl
  | cons g t ih =>
    cases h : g.image with
    | none => simpa [List.filterMap_cons, h] using ih
    | some img =>
      simp [List.filterMap_cons, h, to_image_content, ih]

/-- Keeping the entries that carry an image and counting them agree. -/
theorem filterMap_image_length (l : List GeneratedImage) :
    (l.filterMap fun g => g.image).length =
      (l.filter fun g => g.image.isSome).length := by
  induction l with
  | nil => rfl
  | cons g t ih =>
    cases h : g.image <;>
      simp [List.filterMap_cons, List.filter_cons, h, ih]

/-! ### Claims about the handler -/

/-- C1: when the provider returns a response whose raw generated-image list
is empty, the handler emits a warning notification and fails the call with
an explicit raised error; it never returns a success result. -/
theorem generate_image_empty_raw_fails (env : Env) (req : ResolvedRequest)
    (hc : env.client_construction = Except.ok ())
    (resp : GenerateImagesResponse)
    (hp : env.provider (providerRequest env req) = Except.ok resp)
    (he : resp.generated_images = []) :
    Notif.warning "No images were generated." ∈ (generate_image env req).notifs ∧
    (generate_image env req).outcome =
      HandlerOutcome.raised "No images were generated." ∧
    ∀ images, (generate_image env req).outcome ≠ HandlerOutcome.success images := by
  simp [generate_image, hc, hp, he, HandlerResult.notifs, eventNotif]

/-- C1 witnessed at a concrete environment whose provider returns an empty
entry list. -/
def envEmpty : Env :=
  { MODEL := MODEL_default
    GEMINI_API_KEY := "key"
    client_construction := Except.ok ()
    provider := fun _ => Except.ok { generated_images := [] } }

/-- Concrete request used by the witnesses. -/
def reqA : ResolvedRequest :=
  { prompt := "a red fox in snow"
    image_size := ImageSize.s1K
    num_images := 2
    aspect_ratio := AspectRatio.r1x1
    person_generation := PersonGeneration.allow_adult }

/-- C1 witness: the empty-response failure at a concrete environment. -/
theorem generate_image_empty_raw_fails_witness :
    Notif.warning "No images were generated." ∈ (generate_image envEmpty reqA).notifs ∧
    (generate_image envEmpty reqA).outcome =
      HandlerOutcome.raised "No images were generated." ∧
    ∀ images, (generate_image envEmpty reqA).outcome ≠ HandlerOutcome.success images :=
  generate_image_empty_raw_fails envEmpty reqA rfl { generated_images := [] } rfl rfl

/-- C2: when the provider returns a nonempty entry list, the handler
succeeds with exactly the entries that carry image bytes, wrapped as
image-content objects tagged "image/png" in provider order — the result
list is the byte-carrying entries in order, its length is the number K of
byte-carrying entries, every element is PNG-tagged, and this holds even
when K equals zero. -/
theorem generate_image_filters_and_wraps (env : Env) (req : ResolvedRequest)
    (hc : env.client_construction = Except.ok ())
    (resp : GenerateImagesResponse)
    (hp : env.provider (providerRequest env req) = Except.ok resp)
    (hne : resp.generated_images ≠ []) :
    (generate_image env req).outcome =
      HandlerOutcome.success
        ((resp.generated_images.filterMap fun g => g.image).map
          fun img => ImageContent.mk img.image_bytes "image/png") ∧
    ∀ images, (generate_image env req).outcome = HandlerOutcome.success images →
      images.length = (resp.generated_images.filter fun g => g.image.isSome).length ∧
      ∀ c ∈ images, c.mimeType = "image/png" := by
  have hempty : resp.generated_images.isEmpty = false :=
    List.isEmpty_eq_false.mpr hne
  have hout : (generate_image env req).outcome =
      HandlerOutcome.success
        ((resp.generated_images.filterMap fun g => g.image).map
          fun img => ImageContent.mk img.image_bytes "image/png") := by
    simp [generate_image, hc, hp, hempty, wrap_convert_eq]
  refine ⟨hout, fun images himg => ?_⟩
  rw [hout] at himg
  obtain rfl : images =
      (resp.generated_images.filterMap fun g => g.image).map
        (fun img => ImageContent.mk img.image_bytes "image/png") := by
    cases himg
    rfl
  constructor
  · simpa using filterMap_image_length resp.generated_images
  · intro c hm
    rcases List.mem_map.mp hm with ⟨img, _, rfl⟩
    rfl

/-- Environment whose provider yields one entry without image bytes (N = 1,
K = 0). -/
def envNoBytes : Env :=
  { MODEL := MODEL_default
    GEMINI_API_KEY := "key"
    client_construction := Except.ok ()
    provider := fun _ => Except.ok { generated_images := [{ image := none }] } }

/-- C2 witness: one entry with no bytes gives an empty success result. -/
theorem generate_image_filters_and_wraps_witness :
    (generate_image envNoBytes reqA).outcome =
      HandlerOutcome.success
        ((List.filterMap (fun g => g.image)
            [({ image := none } : GeneratedImage)]).map
          fun img => ImageContent.mk img.image_bytes "image/png") ∧
    ∀ images, (generate_image envNoBytes reqA).outcome = HandlerOutcome.success images →
      images.length =
        (List.filter (fun g => g.image.isSome)
          [({ image := none } : GeneratedImage)]).length ∧
      ∀ c ∈ images, c.mimeType = "image/png" :=
  generate_image_filters_and_wraps envNoBytes reqA rfl
    { generated_images := [{ image := none }] } rfl (by simp)

/-- C3: when construction of the provider client fails, the handler emits an
error notification, writes an error log line, and re-raises the failure
without issuing any generation request; no result is returned. -/
theorem generate_image_client_failure (env : Env) (req : ResolvedRequest)
    (e : String) (hc : env.client_construction = Except.error e) :
    Notif.error ("Failed to create Gemini client: " ++ e) ∈ (generate_image env req).notifs ∧
    LogLine.error ("Failed to create Gemini client: " ++ e) ∈ (generate_image env req).logs ∧
    (generate_image env req).requests = [] ∧
    (generate_image env req).outcome = HandlerOutcome.raised e ∧
    ∀ images, (generate_image env req).outcome ≠ HandlerOutcome.success images := by
  simp [generate_image, hc, HandlerResult.notifs, HandlerResult.logs,
    HandlerResult.requests, eventNotif, eventLog, eventRequest]

/-- Environment whose client construction raises. -/
def envBadClient : Env :=
  { MODEL := MODEL_default
    GEMINI_API_KEY := "unknown"
    client_construction := Except.error "bad credential"
    provider := fun _ => Except.ok { generated_images := [] } }

/-- C3 witness: client construction failure at a concrete environment. -/
theorem generate_image_client_failure_witness :
    Notif.error ("Failed to create Gemini client: " ++ "bad credential") ∈
      (generate_image envBadClient reqA).notifs ∧
    LogLine.error ("Failed to create Gemini client: " ++ "bad credential") ∈
      (generate_image envBadClient reqA).logs ∧
    (generate_image envBadClient reqA).requests = [] ∧
    (generate_image envBadClient reqA).outcome = HandlerOutcome.raised "bad credential" ∧
    ∀ images, (generate_image envBadClient reqA).outcome ≠ HandlerOutcome.success images :=
  generate_image_client_failure envBadClient reqA "bad credential" rfl

/-- C4: any exception inside the generation try-block — a provider-call
failure or the explicit empty-result error — is reported as an error
notification, written to the log, and re-raised; the handler never returns
an image list in these cases. -/
theorem generate_image_try_block_errors (env : Env) (req : ResolvedRequest)
    (hc : env.client_construction = Except.ok ())
    (hfail : (∃ e, env.provider (providerRequest env req) = Except.error e) ∨
      (∃ resp, env.provider (providerRequest env req) = Except.ok resp ∧
        resp.generated_images = [])) :
    ∃ e, (generate_image env req).outcome = HandlerOutcome.raised e ∧
      Notif.error ("Failed to generate images: " ++ e) ∈ (generate_image env req).notifs ∧
      LogLine.error ("Failed to generate images: " ++ e) ∈ (generate_image env req).logs ∧
      ∀ images, (generate_image env req).outcome ≠ HandlerOutcome.success images := by
  rcases hfail with ⟨e, hp⟩ | ⟨resp, hp, he⟩
  · exact ⟨e, by
      simp [generate_image, hc, hp, HandlerResult.notifs, HandlerResult.logs,
        eventNotif, eventLog]⟩
  · exact ⟨"No images were generated.", by
      simp [generate_image, hc, hp, he, HandlerResult.notifs, HandlerResult.logs,
        eventNotif, eventLog]⟩

/-- Environment whose provider call raises. -/
def envProviderFail : Env :=
  { MODEL := MODEL_default
    GEMINI_API_KEY := "key"
    client_construction := Except.ok ()
    provider := fun _ => Except.error "rate limited" }

/-- C4 witness: a provider-call exception at a concrete environment. -/
theorem generate_image_try_block_errors_witness :
    ∃ e, (generate_image envProviderFail reqA).outcome = HandlerOutcome.raised e ∧
      Notif.error ("Failed to generate images: " ++ e) ∈
        (generate_image envProviderFail reqA).notifs ∧
      LogLine.error ("Failed to generate images: " ++ e) ∈
        (generate_image envProviderFail reqA).logs ∧
      ∀ images,
        (generate_image envProviderFail reqA).outcome ≠ HandlerOutcome.success images :=
  generate_image_try_block_errors envProviderFail reqA rfl
    (Or.inl ⟨"rate limited", rfl⟩)

/-- C5: when only the prompt is supplied, validation accepts the request and
the effective parameters are num_images = 4, image_size = "1K",
aspect_ratio = "16:9", person_generation = "allow_adult"; these are exactly
the values placed in the provider request config, together with the fixed
PNG output MIME type. -/
theorem resolveRequest_defaults (p : String) (hp : ¬ 1920 < p.length) :
    resolveRequest
        { prompt := p, image_size := none, num_images := none,
          aspect_ratio := none, person_generation := none } =
      some
        { prompt := p, image_size := ImageSize.s1K, num_images := 4,
          aspect_ratio := AspectRatio.r16x9,
          person_generation := PersonGeneration.allow_adult } ∧
    ∀ env : Env,
      (providerRequest env
          { prompt := p, image_size := ImageSize.s1K, num_images := 4,
            aspect_ratio := AspectRatio.r16x9,
            person_generation := PersonGeneration.allow_adult }).config =
        { number_of_images := 4, image_size := ImageSize.s1K,
          aspect_ratio := AspectRatio.r16x9,
          person_generation := PersonGeneration.allow_adult,
          output_mime_type := "image/png" } := by
  refine ⟨?_, fun env => rfl⟩
  simp [resolveRequest, hp]

/-- C5 witness: the defaults scenario on the prompt "sunset". -/
theorem resolveRequest_defaults_witness :
    resolveRequest
        { prompt := "sunset", image_size := none, num_images := none,
          aspect_ratio := none, person_generation := none } =
      some
        { prompt := "sunset", image_size := ImageSize.s1K, num_images := 4,
          aspect_ratio := AspectRatio.r16x9,
          person_generation := PersonGeneration.allow_adult } ∧
    ∀ env : Env,
      (providerRequest env
          { prompt := "sunset", image_size := ImageSize.s1K, num_images := 4,
            aspect_ratio := AspectRatio.r16x9,
            person_generation := PersonGeneration.allow_adult }).config =
        { number_of_images := 4, image_size := ImageSize.s1K,
          aspect_ratio := AspectRatio.r16x9,
          person_generation := PersonGeneration.allow_adult,
          output_mime_type := "image/png" } :=
  resolveRequest_defaults "sunset" (by decide)

/-- C6: a request whose num_images lies outside [1,4] or whose prompt
exceeds 1920 characters is rejected before the handler body runs: the
dispatch produces no handler run at all, so no client is constructed and no
provider request is issued. -/
theorem dispatchTool_rejects_invalid (env : Env) (r : RawRequest)
    (h : (∃ n, r.num_images = some n ∧ (n < 1 ∨ 4 < n)) ∨ 1920 < r.prompt.length) :
    dispatchTool env r = none := by
  rcases h with ⟨n, hn, hout⟩ | hlen
  · by_cases hlen : 1920 < r.prompt.length
    · simp [dispatchTool, resolveRequest, hlen]
    · simp [dispatchTool, resolveRequest, hlen, hn, hout]
  · simp [dispatchTool, resolveRequest, hlen]

/-- C6 witness: num_images = 7 is rejected before any outbound call. -/
theorem dispatchTool_rejects_invalid_witness :
    dispatchTool envEmpty
        { prompt := "sunset", image_size := none, num_images := some 7,
          aspect_ratio := none, person_generation := none } =
      none :=
  dispatchTool_rejects_invalid envEmpty
    { prompt := "sunset", image_size := none, num_images := some 7,
      aspect_ratio := none, person_generation := none }
    (Or.inl ⟨7, rfl, by decide⟩)

/-- C7: every handler run that reaches dispatch issues exactly one provider
request, carrying the process-wide model, the prompt, the requested count,
size, aspect ratio, person-generation policy, and the fixed output MIME
type "image/png"; there is never a second provider call. -/
theorem generate_image_single_dispatch (env : Env) (req : ResolvedRequest)
    (hc : env.client_construction = Except.ok ()) :
    (generate_image env req).requests = [providerRequest env req] ∧
    (providerRequest env req).model = env.MODEL ∧
    (providerRequest env req).prompt = req.prompt ∧
    (providerRequest env req).config.number_of_images = req.num_images ∧
    (providerRequest env req).config.image_size = req.image_size ∧
    (providerRequest env req).config.aspect_ratio = req.aspect_ratio ∧
    (providerRequest env req).config.person_generation = req.person_generation ∧
    (providerRequest env req).config.output_mime_type = "image/png" := by
  refine ⟨?_, rfl, rfl, rfl, rfl, rfl, rfl, rfl⟩
  cases hp : env.provider (providerRequest env req) with
  | error e =>
    simp [generate_image, hc, hp, HandlerResult.requests, eventRequest]
  | ok resp =>
    cases hemp : resp.generated_images.isEmpty <;>
      simp [generate_image, hc, hp, hemp, HandlerResult.requests, eventRequest]

/-- Environment whose provider returns two byte-carrying entries. -/
def envTwo : Env :=
  { MODEL := MODEL_default
    GEMINI_API_KEY := "key"
    client_construction := Except.ok ()
    provider := fun _ =>
      Except.ok
        { generated_images :=
            [{ image := some { image_bytes := [1, 2] } },
             { image := some { image_bytes := [3] } }] } }

/-- C7 witness: exactly one provider request at a concrete environment. -/
theorem generate_image_single_dispatch_witness :
    (generate_image envTwo reqA).requests = [providerRequest envTwo reqA] ∧
    (providerRequest envTwo reqA).model = envTwo.MODEL ∧
    (providerRequest envTwo reqA).prompt = reqA.prompt ∧
    (providerRequest envTwo reqA).config.number_of_images = reqA.num_images ∧
    (providerRequest envTwo reqA).config.image_size = reqA.image_size ∧
    (providerRequest envTwo reqA).config.aspect_ratio = reqA.aspect_ratio ∧
    (providerRequest envTwo reqA).config.person_generation = reqA.person_generation ∧
    (providerRequest envTwo reqA).config.output_mime_type = "image/png" :=
  generate_image_single_dispatch envTwo reqA rfl

/-- C8: once the client is constructed, the events before the provider call
are exactly three log lines followed by the "making request" info
notification — so that notification precedes dispatch and is the only
notification before it — and on success the last notification is an info
notification whose stated count is the length of the returned image list. -/
theorem generate_image_progress_notifications (env : Env) (req : ResolvedRequest)
    (hc : env.client_construction = Except.ok ()) :
    ((generate_image env req).trace.take 4).filterMap eventNotif =
      [Notif.info (makingRequestMsg req.prompt)] ∧
    (generate_image env req).trace.get? 4 =
      some (Event.providerCall (providerRequest env req)) ∧
    ∀ images, (generate_image env req).outcome = HandlerOutcome.success images →
      (generate_image env req).notifs.getLast? =
        some (Notif.info
          ("Successfully generated " ++ toString images.length ++ " images.")) := by
  cases hp : env.provider (providerRequest env req) with
  | error e =>
    refine ⟨?_, ?_, ?_⟩ <;>
      simp [generate_image, hc, hp, eventNotif, HandlerResult.notifs]
  | ok resp =>
    cases hemp : resp.generated_images.isEmpty with
    | true =>
      refine ⟨?_, ?_, ?_⟩ <;>
        simp [generate_image, hc, hp, hemp, eventNotif, HandlerResult.notifs]
    | false =>
      refine ⟨?_, ?_, fun images himg => ?_⟩
      · simp [generate_image, hc, hp, hemp, eventNotif]
      · simp [generate_image, hc, hp, hemp]
      · have himg' :
            images =
              (resp.generated_images.filterMap fun g =>
                  g.image.map fun img =>
                    FastMCPImage.mk img.image_bytes "png").map to_image_content := by
          have := himg
          simp [generate_image, hc, hp, hemp] at this
          exact this.symm
        subst himg'
        simp [generate_image, hc, hp, hemp, HandlerResult.notifs, eventNotif]

/-- C8 witness: the progress notifications at a concrete environment with a
two-image response. -/
theorem generate_image_progress_notifications_witness :
    ((generate_image envTwo reqA).trace.take 4).filterMap eventNotif =
      [Notif.info (makingRequestMsg reqA.prompt)] ∧
    (generate_image envTwo reqA).trace.get? 4 =
      some (Event.providerCall (providerRequest envTwo reqA)) ∧
    ∀ images, (generate_image envTwo reqA).outcome = HandlerOutcome.success images →
      (generate_image envTwo reqA).notifs.getLast? =
        some (Notif.info
          ("Successfully generated " ++ toString images.length ++ " images.")) :=
  generate_image_progress_notifications envTwo reqA rfl

/-- Click resolution as an orElse/getD chain. -/
theorem resolveOpt_eq {α : Type} (i : OptInput α) (dflt : α) :
    resolveOpt i dflt = (i.flag <|> i.envVar).getD dflt := by
  cases h : i.flag <;> cases h2 : i.envVar <;> simp [resolveOpt, h, h2]

/-- C9: the entry point resolves every configuration value as flag, then
environment variable, then default (transport "streamable-http", port 3000,
host "127.0.0.1", log level "INFO", the fixed default model name, credential
sentinel "unknown"), assigns exactly the resolved model identifier and
credential into the process-wide state handed to the serving loop, and runs
the HTTP transport bound to host:port when the transport is
"streamable-http" and the stdio transport otherwise. -/
theorem mainEntry_config_resolution (c : CliInput) :
    (mainEntry c).logLevelConfigured =
      (c.log_level.flag <|> c.log_level.envVar).getD LogLevel.INFO ∧
    (mainEntry c).state =
      { MODEL := (c.model.flag <|> c.model.envVar).getD "imagen-4.0-generate-001",
        GEMINI_API_KEY := (c.api_key.flag <|> c.api_key.envVar).getD "unknown" } ∧
    MODEL_default = "imagen-4.0-generate-001" ∧
    GEMINI_API_KEY_default = "unknown" ∧
    (mainEntry c).run =
      (match (c.transport.flag <|> c.transport.envVar).getD Transport.streamable_http with
        | Transport.streamable_http =>
          ServerRun.streamableHttp ((c.host.flag <|> c.host.envVar).getD "127.0.0.1")
            ((c.port.flag <|> c.port.envVar).getD 3000)
        | Transport.stdio => ServerRun.stdio) := by
  refine ⟨?_, ?_, rfl, rfl, ?_⟩
  · simp [mainEntry, resolveConfig, resolveOpt_eq]
  · simp [mainEntry, resolveConfig, resolveOpt_eq, MODEL_default, GEMINI_API_KEY_default]
  · simp only [mainEntry, resolveConfig, resolveOpt_eq]

/-- C10: on an empty raw provider response the failure is reported twice:
the warning notification is followed by a generic error notification (the
explicit empty-result error raised in the try block is caught by the
handler's own exception handler), an error log line is written, and the
error is re-raised. -/
theorem generate_image_double_report_on_empty (env : Env) (req : ResolvedRequest)
    (hc : env.client_construction = Except.ok ())
    (resp : GenerateImagesResponse)
    (hp : env.provider (providerRequest env req) = Except.ok resp)
    (he : resp.generated_images = []) :
    (generate_image env req).notifs =
      [Notif.info (makingRequestMsg req.prompt),
       Notif.warning "No images were generated.",
       Notif.error "Failed to generate images: No images were generated."] ∧
    LogLine.error "Failed to generate images: No images were generated." ∈
      (generate_image env req).logs ∧
    (generate_image env req).outcome =
      HandlerOutcome.raised "No images were generated." := by
  simp [generate_image, hc, hp, he, HandlerResult.notifs, HandlerResult.logs,
    eventNotif, eventLog, append_failed_generate]

/-- C10 witness: the doubled report at a concrete environment. -/
theorem generate_image_double_report_on_empty_witness :
    (generate_image envEmpty reqA).notifs =
      [Notif.info (makingRequestMsg reqA.prompt),
       Notif.warning "No images were generated.",
       Notif.error "Failed to generate images: No images were generated."] ∧
    LogLine.error "Failed to generate images: No images were generated." ∈
      (generate_image envEmpty reqA).logs ∧
    (generate_image envEmpty reqA).outcome =
      HandlerOutcome.raised "No images were generated." :=
  generate_image_double_report_on_empty envEmpty reqA rfl
    { generated_images := [] } rfl rfl

end McpImageGenerator
